import Mathlib

/-!
Verification of the NightyScripts repository against its natural-language
specification.  The repository is a collection of Discord selfbot plugin
scripts; the parts with checkable logic are the multi-layer AES packaging
in aes_script.py, the HMAC layer, the DM logger guards in DmLogger.py,
the polling message forwarder in ChannelForwarder.py, and the ping tracker
in afk_scriptV3.py.  Cryptographic primitives, compression, base64 and
UTF-8 codecs are calls into external libraries (pycryptodome, zlib,
base64); they are modelled as an abstract structure of primitives carrying
exactly the round-trip laws those libraries document, while every piece of
plumbing written in this repository (slicing offsets, key derivation
wiring, package field layout, guard conditions) is translated directly
from the source.
-/

namespace NightyScripts

/-! ## Abstract external primitives (pycryptodome, zlib, base64, utf-8)

Bytes are modelled as `List Nat`.  Each field corresponds to one library
call made by aes_script.py; the laws are the documented behaviour of the
library (authenticated decryption inverts encryption, the GCM tag is 16
bytes, HMAC-SHA256 digests are 32 bytes, codecs round-trip). -/
structure Prims where
  gcmEncrypt : List Nat → List Nat → List Nat → List Nat × List Nat
  gcmDecrypt : List Nat → List Nat → List Nat → List Nat → Option (List Nat)
  cbcEncrypt : List Nat → List Nat → List Nat → List Nat
  cbcDecrypt : List Nat → List Nat → List Nat → List Nat
  ctrEncrypt : List Nat → List Nat → List Nat → List Nat
  ctrDecrypt : List Nat → List Nat → List Nat → List Nat
  pad : List Nat → Nat → List Nat
  unpad : List Nat → Nat → Option (List Nat)
  hmacSha256 : List Nat → List Nat → List Nat
  sha256 : List Nat → List Nat
  pbkdf2 : String → List Nat → Nat → List Nat
  compress : List Nat → List Nat
  decompress : List Nat → Option (List Nat)
  b64Encode : List Nat → List Nat
  b64Decode : List Nat → Option (List Nat)
  utf8Encode : String → List Nat
  utf8Decode : List Nat → Option String
  gcm_decrypt_encrypt : ∀ k n pt,
    gcmDecrypt k n (gcmEncrypt k n pt).1 (gcmEncrypt k n pt).2 = some pt
  gcm_tag_length : ∀ k n pt, (gcmEncrypt k n pt).2.length = 16
  cbc_decrypt_encrypt : ∀ k iv pt, cbcDecrypt k iv (cbcEncrypt k iv pt) = pt
  ctr_decrypt_encrypt : ∀ k n pt, ctrDecrypt k n (ctrEncrypt k n pt) = pt
  unpad_pad : ∀ bs b, unpad (pad bs b) b = some bs
  hmac_length : ∀ k d, (hmacSha256 k d).length = 32
  decompress_compress : ∀ bs, decompress (compress bs) = some bs
  b64_decode_encode : ∀ bs, b64Decode (b64Encode bs) = some bs
  utf8_decode_encode : ∀ s, utf8Decode (utf8Encode s) = some s

/-- Python str.upper modelled character-wise (the scripts only pass ASCII
mode names, where str.upper agrees with the per-character mapping). -/
def pyUpper (s : String) : String := String.mk (s.data.map Char.toUpper)

namespace AES

/-- Randomness consumed by one call of multi_layer_encrypt: the output of
get_random_bytes for the session key and the PBKDF2 salt, and the
nonce/IV generated inside AES.new for each mode. -/
structure Rand where
  freshKey : List Nat
  freshSalt : List Nat
  gcmNonce : List Nat
  cbcIv : List Nat
  ctrNonce : List Nat

/-- The aes_config.json configuration of aes_script.py (load_config defaults). -/
structure Config where
  default_mode : String
  default_keysize : Nat
  pbkdf2_iterations : Nat
  rsa_keysize : Nat
  enable_compression : Bool
  enable_hmac : Bool

/-- The JSON data package produced by multi_layer_encrypt.  String-valued
base64 fields are modelled as the byte lists of their text. -/
structure Package where
  version : String
  mode : String
  key_size : Nat
  has_compression : Bool
  has_hmac : Bool
  data : List Nat
  timestamp : Nat
  salt : Option (List Nat)
  iterations : Option Nat
  key : Option (List Nat)

/-- Python truthiness of an optional string argument (None and the empty
string are falsy). -/
def pyTruthyStr : Option String → Bool
  | none => false
  | some s => s != ""

/-- Python truthiness of an optional byte-string argument. -/
def pyTruthyBytes : Option (List Nat) → Bool
  | none => false
  | some l => l != []

/-- ASCII bytes of the literal b"hmac_salt" used to derive the HMAC key. -/
def hmac_salt_bytes : List Nat := [104, 109, 97, 99, 95, 115, 97, 108, 116]

/-- derive_key_from_password with an explicit salt (the salt=None branch is
resolved at call sites via `Rand.freshSalt`). -/
def derive_key_from_password (P : Prims) (password : String) (salt : List Nat)
    (iterations : Nat) : List Nat × List Nat :=
  (P.pbkdf2 password salt iterations, salt)

/-- encrypt_aes_gcm: returns cipher.nonce + tag + ciphertext. -/
def encrypt_aes_gcm (P : Prims) (nonce plaintext key : List Nat) : List Nat :=
  nonce ++ (P.gcmEncrypt key nonce plaintext).2 ++ (P.gcmEncrypt key nonce plaintext).1

/-- decrypt_aes_gcm: slices nonce = b[:16], tag = b[16:32], ct = b[32:]. -/
def decrypt_aes_gcm (P : Prims) (cwn key : List Nat) : Option (List Nat) :=
  P.gcmDecrypt key (cwn.take 16) (cwn.drop 32) ((cwn.drop 16).take 16)

/-- encrypt_aes_cbc: PKCS7-pads to the 16-byte block size, returns iv + ct. -/
def encrypt_aes_cbc (P : Prims) (iv plaintext key : List Nat) : List Nat :=
  iv ++ P.cbcEncrypt key iv (P.pad plaintext 16)

/-- decrypt_aes_cbc: iv = b[:16], ct = b[16:], decrypt then unpad. -/
def decrypt_aes_cbc (P : Prims) (cwi key : List Nat) : Option (List Nat) :=
  P.unpad (P.cbcDecrypt key (cwi.take 16) (cwi.drop 16)) 16

/-- encrypt_aes_ctr: returns cipher.nonce (8 bytes) + ciphertext. -/
def encrypt_aes_ctr (P : Prims) (nonce plaintext key : List Nat) : List Nat :=
  nonce ++ P.ctrEncrypt key nonce plaintext

/-- decrypt_aes_ctr: nonce = b[:8], ct = b[8:]. -/
def decrypt_aes_ctr (P : Prims) (cwn key : List Nat) : List Nat :=
  P.ctrDecrypt key (cwn.take 8) (cwn.drop 8)

/-- add_hmac_protection: appends the 32-byte HMAC-SHA256 digest. -/
def add_hmac_protection (P : Prims) (data key : List Nat) : List Nat :=
  data ++ P.hmacSha256 key data

/-- verify_hmac_protection: data = b[:-32], received = b[-32:], raises
ValueError when the digest does not match. -/
def verify_hmac_protection (P : Prims) (dwh key : List Nat) :
    Except String (List Nat) :=
  let data := dwh.take (dwh.length - 32)
  let received_hmac := dwh.drop (dwh.length - 32)
  if received_hmac = P.hmacSha256 key data then Except.ok data
  else Except.error "HMAC verification failed - data may be tampered"

/-- multi_layer_encrypt from aes_script.py, with the randomness drawn by
the library calls passed explicitly and the json.dumps serialization
modelled away (the function returns the package record). -/
def multi_layer_encrypt (P : Prims) (r : Rand) (cfg : Config) (now : Nat)
    (message : String) (mode : String) (key_size : Nat)
    (password : Option String) : Except String Package :=
  let keysalt : List Nat × Option (List Nat) :=
    if pyTruthyStr password then
      let ks := derive_key_from_password P (password.getD "") r.freshSalt
        cfg.pbkdf2_iterations
      (ks.1, some ks.2)
    else
      (r.freshKey, none)
  let encryption_key := keysalt.1
  let plaintext0 := P.utf8Encode message
  let plaintext :=
    if cfg.enable_compression then P.compress plaintext0 else plaintext0
  let encData : Except String (List Nat) :=
    if pyUpper mode = "GCM" then
      Except.ok (encrypt_aes_gcm P r.gcmNonce plaintext encryption_key)
    else if pyUpper mode = "CBC" then
      Except.ok (encrypt_aes_cbc P r.cbcIv plaintext encryption_key)
    else if pyUpper mode = "CTR" then
      Except.ok (encrypt_aes_ctr P r.ctrNonce plaintext encryption_key)
    else Except.error ("Unsupported encryption mode: " ++ mode)
  match encData with
  | Except.error e => Except.error e
  | Except.ok ed0 =>
    let ed :=
      if cfg.enable_hmac then
        add_hmac_protection P ed0 (P.sha256 (encryption_key ++ hmac_salt_bytes))
      else ed0
    let base : Package :=
      { version := "1.0", mode := pyUpper mode, key_size := key_size,
        has_compression := cfg.enable_compression,
        has_hmac := cfg.enable_hmac,
        data := P.b64Encode ed, timestamp := now,
        salt := none, iterations := none, key := none }
    Except.ok (match keysalt.2 with
      | some s =>
        if s != [] then
          { base with salt := some (P.b64Encode s),
                      iterations := some cfg.pbkdf2_iterations }
        else { base with key := some (P.b64Encode encryption_key) }
      | none => { base with key := some (P.b64Encode encryption_key) })

/-- Lifts an optional library result into the exception monad. -/
def liftO {α : Type} (o : Option α) (msg : String) : Except String α :=
  match o with
  | some a => Except.ok a
  | none => Except.error msg

/-- Body of multi_layer_decrypt before the outer exception wrapper. -/
def multi_layer_decrypt_inner (P : Prims) (package : Package)
    (password : Option String) (key : Option (List Nat)) :
    Except String String :=
  let ekey : Except String (List Nat) :=
    if package.salt.isSome && pyTruthyStr password then
      match P.b64Decode (package.salt.getD []) with
      | some salt =>
        Except.ok (derive_key_from_password P (password.getD "") salt
          (package.iterations.getD 100000)).1
      | none => Except.error "invalid base64 salt"
    else if package.key.isSome then
      liftO (P.b64Decode (package.key.getD [])) "invalid base64 key"
    else if pyTruthyBytes key then
      liftO (P.b64Decode (key.getD [])) "invalid base64 key"
    else Except.error "No decryption key available"
  match ekey with
  | Except.error e => Except.error e
  | Except.ok encryption_key =>
    match P.b64Decode package.data with
    | none => Except.error "invalid base64 data"
    | some encrypted_data0 =>
      let ed : Except String (List Nat) :=
        if package.has_hmac then
          verify_hmac_protection P encrypted_data0
            (P.sha256 (encryption_key ++ hmac_salt_bytes))
        else Except.ok encrypted_data0
      match ed with
      | Except.error e => Except.error e
      | Except.ok encrypted_data =>
        let pt : Except String (List Nat) :=
          if package.mode = "GCM" then
            liftO (decrypt_aes_gcm P encrypted_data encryption_key)
              "MAC check failed"
          else if package.mode = "CBC" then
            liftO (decrypt_aes_cbc P encrypted_data encryption_key)
              "Padding is incorrect."
          else if package.mode = "CTR" then
            Except.ok (decrypt_aes_ctr P encrypted_data encryption_key)
          else Except.error ("Unsupported decryption mode: " ++ package.mode)
        match pt with
        | Except.error e => Except.error e
        | Except.ok plaintext0 =>
          let ptd : Except String (List Nat) :=
            if package.has_compression then
              liftO (P.decompress plaintext0) "zlib decompression error"
            else Except.ok plaintext0
          match ptd with
          | Except.error e => Except.error e
          | Except.ok plaintext =>
            liftO (P.utf8Decode plaintext) "utf-8 decode error"

/-- multi_layer_decrypt: wraps any internal exception as
ValueError("Decryption failed: ..."). -/
def multi_layer_decrypt (P : Prims) (package : Package)
    (password : Option String) (key : Option (List Nat)) :
    Except String String :=
  match multi_layer_decrypt_inner P package password key with
  | Except.ok s => Except.ok s
  | Except.error e => Except.error ("Decryption failed: " ++ e)

end AES

/-! ## A concrete instance of the external primitives

Used to witness the theorems at computable inputs.  The instance is not
real cryptography; it merely satisfies the laws the library documents
(round-trips, digest and tag lengths). -/

def testPrims : Prims where
  gcmEncrypt := fun k n pt => (pt, (k ++ n ++ pt ++ List.replicate 16 0).take 16)
  gcmDecrypt := fun k n ct tag =>
    if tag = (k ++ n ++ ct ++ List.replicate 16 0).take 16 then some ct else none
  cbcEncrypt := fun _ _ pt => pt
  cbcDecrypt := fun _ _ ct => ct
  ctrEncrypt := fun _ _ pt => pt
  ctrDecrypt := fun _ _ ct => ct
  pad := fun bs _ => bs ++ [1]
  unpad := fun bs _ => some bs.dropLast
  hmacSha256 := fun k d => List.replicate 32 (k.length + 2 * d.length)
  sha256 := fun d => List.replicate 32 d.length
  pbkdf2 := fun pwd salt it => salt ++ [pwd.length, it]
  compress := fun bs => bs
  decompress := fun bs => some bs
  b64Encode := fun bs => bs
  b64Decode := fun bs => some bs
  utf8Encode := fun s => s.data.map Char.toNat
  utf8Decode := fun l => some (String.mk (l.map Char.ofNat))
  gcm_decrypt_encrypt := by intro k n pt; simp
  gcm_tag_length := by
    intro k n pt
    simp [List.length_take, List.length_append]
    omega
  cbc_decrypt_encrypt := fun _ _ _ => rfl
  ctr_decrypt_encrypt := fun _ _ _ => rfl
  unpad_pad := by intro bs b; simp
  hmac_length := fun _ _ => List.length_replicate 32 _
  decompress_compress := fun _ => rfl
  b64_decode_encode := fun _ => rfl
  utf8_decode_encode := by
    intro s
    simp only [List.map_map, Function.comp_def, Char.ofNat_toNat, List.map_id']

/-! ## DmLogger.py: log_dm event listener and setdmwebhook command -/

namespace DmLogger

/-- The three config values DmLogger.py reads through getConfigData. -/
structure Config where
  dm_logger_enabled : Bool
  dm_webhook_url : String
  embed_color : String

/-- The attributes of message.author that log_dm reads. -/
structure Author where
  id : Nat
  bot : Bool
  name : String
  avatarUrl : Option String

/-- The attributes of a message attachment that log_dm reads. -/
structure Attachment where
  filename : String
  url : String

/-- The attributes of the incoming message that log_dm reads. -/
structure Message where
  guild : Option Nat
  author : Author
  clean_content : String
  jump_url : String
  attachments : List Attachment

/-- One field of the webhook embed dictionary. -/
structure EmbedField where
  name : String
  value : String
  inline : Bool

/-- The webhook embed dictionary built by log_dm. -/
structure Embed where
  title : String
  description : String
  color : Nat
  fields : List EmbedField
  footerText : String
  thumbnailUrl : String
  image : Option String

/-- Value of one hexadecimal digit character. -/
def hexDigitVal (c : Char) : Option Nat :=
  if c.isDigit then some (c.toNat - 48)
  else if 97 ≤ c.toNat ∧ c.toNat ≤ 102 then some (c.toNat - 87)
  else if 65 ≤ c.toNat ∧ c.toNat ≤ 70 then some (c.toNat - 55)
  else none

/-- Python int(s, 16) on strings of bare hexadecimal digits, which is the
shape the script writes ("5865F2").  Python additionally accepts
surrounding whitespace, a sign and a 0x prefix; none of those affect the
inputs exercised here, and int(s, 16) raises ValueError exactly when the
model returns none on this fragment. -/
def pyIntHex (s : String) : Option Nat :=
  if s.data = [] then none
  else
    s.data.foldl
      (fun acc c =>
        match acc, hexDigitVal c with
        | some a, some d => some (16 * a + d)
        | _, _ => none)
      (some 0)

/-- Python str.lower modelled character-wise (filenames compared here are
ASCII). -/
def pyLower (s : String) : String := String.mk (s.data.map Char.toLower)

/-- Python s.startswith(pre). -/
def pyStartsWith (s pre : String) : Bool := pre.data.isPrefixOf s.data

/-- Python s.endswith(suf). -/
def pyEndsWith (s suf : String) : Bool := suf.data.reverse.isPrefixOf s.data.reverse

/-- Python s.strip() for ASCII whitespace. -/
def pyStrip (s : String) : String :=
  String.mk
    (((s.data.dropWhile Char.isWhitespace).reverse.dropWhile Char.isWhitespace).reverse)

/-- The image-extension test log_dm applies to the first attachment. -/
def isImageFilename (name : String) : Bool :=
  [".png", ".jpg", ".jpeg", ".gif", ".webp"].any fun ext =>
    pyEndsWith (pyLower name) ext

/-- The embed dictionary constructed by log_dm (webhook branch). -/
def build_embed (color : Nat) (timestamp : String) (msg : Message) : Embed :=
  let baseFields : List EmbedField :=
    [ { name := "From",
        value := msg.author.name ++ " (<@" ++ toString msg.author.id ++ ">)",
        inline := true },
      { name := "User ID", value := toString msg.author.id, inline := true },
      { name := "Message Link",
        value := "[Jump to Message](" ++ msg.jump_url ++ ")", inline := true },
      { name := "Timestamp", value := timestamp, inline := false } ]
  let allFields :=
    if !msg.attachments.isEmpty then
      baseFields ++
        [ { name := "Attachments",
            value := String.intercalate "\n"
              ((msg.attachments.take 5).map fun a =>
                "[" ++ a.filename ++ "](" ++ a.url ++ ")"),
            inline := false } ]
    else baseFields
  { title := "New Direct Message",
    description :=
      if msg.clean_content ≠ "" then "> " ++ msg.clean_content
      else "> *[No text content]*",
    color := color,
    fields := allFields,
    footerText := "DM Logger Enhanced",
    thumbnailUrl := (msg.author.avatarUrl.getD ""),
    image :=
      match msg.attachments with
      | [] => none
      | first :: _ =>
        if isImageFilename first.filename then some first.url else none }

/-- Observable effects of one run of the log_dm listener. -/
inductive DMAction where
  | consoleLog (line : String)
  | webhookSend (url : String) (embed : Embed)

/-- Result of one run of log_dm: the actions performed, and the message of
the exception that escaped the handler, if any. -/
structure LogResult where
  actions : List DMAction
  raised : Option String

/-- The log_dm on_message listener of DmLogger.py.  The guards, the console
log, the int(embed_color, 16) parse and the webhook send are translated in
source order; an attempted send is a webhookSend action (the handler
itself wraps the send in try/except, so a failing HTTP post still counts
as attempted). -/
def log_dm (cfg : Config) (botUserId : Nat) (timestamp : String)
    (msg : Message) : LogResult :=
  if msg.guild.isSome then { actions := [], raised := none }
  else if msg.author.id = botUserId || msg.author.bot then
    { actions := [], raised := none }
  else if !cfg.dm_logger_enabled then { actions := [], raised := none }
  else
    let consoleLine :=
      "[" ++ timestamp ++ "] DM from " ++ msg.author.name ++ " (" ++
        toString msg.author.id ++ "): " ++ msg.clean_content
    if cfg.dm_webhook_url ≠ "" then
      match pyIntHex cfg.embed_color with
      | none =>
        { actions := [DMAction.consoleLog consoleLine],
          raised := some "invalid literal for int() with base 16" }
      | some color =>
        { actions :=
            [DMAction.consoleLog consoleLine,
             DMAction.webhookSend cfg.dm_webhook_url
               (build_embed color timestamp msg)],
          raised := none }
    else { actions := [DMAction.consoleLog consoleLine], raised := none }

/-- True when the run attempted a webhook send. -/
def isWebhookSend : DMAction → Bool
  | DMAction.webhookSend _ _ => true
  | _ => false

/-- Whether a log_dm run attempted to send the webhook embed. -/
def attemptsWebhook (r : LogResult) : Bool := r.actions.any isWebhookSend

/-- Outcome of the setdmwebhook command: either dm_webhook_url is updated
to the given value or the command replies with an error and leaves the
config untouched. -/
inductive SetWebhookResult where
  | updated (newUrl : String)
  | rejected (reply : String)

/-- The set_dm_webhook command body of DmLogger.py (after ctx.message.delete). -/
def set_dm_webhook (webhook_url : String) : SetWebhookResult :=
  if webhook_url = "" then
    SetWebhookResult.rejected "Please provide a webhook URL."
  else if pyStartsWith webhook_url "https://discord.com/api/webhooks/" ||
      pyStartsWith webhook_url "https://discordapp.com/api/webhooks/" then
    SetWebhookResult.updated (pyStrip webhook_url)
  else
    SetWebhookResult.rejected
      "Invalid webhook URL format. Please provide a valid Discord webhook URL."

end DmLogger

/-! ## ChannelForwarder.py: polling fetch loop and token handling -/

namespace Forwarder

/-- A fetched message as the loop uses it: only the id field drives the
loop logic (the payload is passed opaquely to forward_message, modelled by
the success predicate). -/
structure Msg where
  id : String

/-- Python "&".join. -/
def joinAmp : List String → String
  | [] => ""
  | [s] => s
  | s :: rest => s ++ "&" ++ joinAmp rest

/-- The query parameters fetch_messages builds: limit=50 always, then the
after cursor when one is stored (Python dict insertion order). -/
def fetch_params (after : Option String) : List (String × String) :=
  [("limit", "50")] ++
    (match after with
     | some a => [("after", a)]
     | none => [])

/-- The full request URL fetch_messages builds. -/
def fetch_url (channel_id : String) (after : Option String) : String :=
  "/channels/" ++ channel_id ++ "/messages?" ++
    joinAmp ((fetch_params after).map fun p => p.1 ++ "=" ++ p.2)

/-- The bot.http client state: the token field fetch_messages swaps, and
all its other fields collected opaquely in rest. -/
structure HttpState (α : Type) where
  token : String
  rest : α

/-- fetch_messages of ChannelForwarder.py: saves bot.http.token, installs
the provided token, performs the request, and restores the original token
in a finally block; the outer except turns any request failure into None. -/
def fetch_messages_state {α E R : Type}
    (request : String → HttpState α → Except E R × HttpState α)
    (token channel_id : String) (after : Option String) (s : HttpState α) :
    Option R × HttpState α :=
  let original_token := s.token
  let s1 : HttpState α := { s with token := token }
  let out := request (fetch_url channel_id after) s1
  let s2 : HttpState α := { out.2 with token := original_token }
  match out.1 with
  | Except.ok r => (some r, s2)
  | Except.error _ => (none, s2)

/-- One step of the forwarding pass inside monitor_channel: skip the
message whose id equals the current cursor, forward the rest, and advance
the cursor only when forward_message reported success. -/
def forward_step (f : Msg → Bool) (acc : List Msg × String) (m : Msg) :
    List Msg × String :=
  if m.id ≠ acc.2 then
    if f m then (acc.1 ++ [m], m.id) else acc
  else acc

/-- The per-iteration forwarding pass: messages are processed in reversed
(oldest-first) order; returns the forwarded messages in forwarding order
and the final cursor. -/
def process_messages (f : Msg → Bool) (messages : List Msg) (last : String) :
    List Msg × String :=
  messages.reverse.foldl (forward_step f) ([], last)

/-- Result of one iteration of the monitor_channel while-loop body. -/
structure IterResult where
  forwarded : List Msg
  last_id : String
  sleep : Nat

/-- One iteration of the monitor_channel loop body: fetch (None on HTTP
failure), forward oldest first, then asyncio.sleep(2). -/
def monitor_iteration (f : Msg → Bool) (fetched : Option (List Msg))
    (last : String) : IterResult :=
  match fetched with
  | none => { forwarded := [], last_id := last, sleep := 2 }
  | some messages =>
    let r := process_messages f messages last
    { forwarded := r.1, last_id := r.2, sleep := 2 }

/-- The forwarder-related config keys. -/
structure FwdConfig where
  forwarder_is_running : Bool
  forwarder_last_message_id : String

/-- stop_monitoring: sets the forwarder_is_running config flag to False. -/
def stop_monitoring (c : FwdConfig) : FwdConfig :=
  { c with forwarder_is_running := false }

/-- What iteration i of the loop observes: the forwarder_is_running flag
at the head-of-loop config check, and the fetch result. -/
structure IterEnv where
  running : Bool
  fetched : Option (List Msg)

/-- The monitor_channel while-loop, fuel-bounded, tagging each forwarded
message with its iteration index.  The loop breaks before fetching or
forwarding as soon as the flag reads false. -/
def run_loop (env : Nat → IterEnv) (f : Msg → Bool) :
    Nat → Nat → String → List (Nat × Msg)
  | 0, _, _ => []
  | Nat.succ fuel, i, last =>
    if (env i).running then
      let r := monitor_iteration f (env i).fetched last
      (r.forwarded.map fun m => (i, m)) ++ run_loop env f fuel (i + 1) r.last_id
    else []

end Forwarder

/-! ## afk_scriptV3.py: ping_tracker storage bound -/

namespace PingTracker

/-- One entry of ping_tracker.json. -/
structure Entry where
  timestamp : String
  username : String
  user_id : String
  message_link : String

/-- The attributes of the incoming message that ping_tracker reads. -/
structure Msg where
  author_id : Nat
  author_bot : Bool
  author_str : String
  guild : Option Nat
  channel_id : Nat
  recipients : Nat
  mentions : List Nat
  jump_url : String

/-- The ping entry appended for a tracked message. -/
def ping_entry (now : String) (m : Msg) : Entry :=
  { timestamp := now, username := m.author_str,
    user_id := toString m.author_id, message_link := m.jump_url }

/-- The store write of ping_tracker: append the entry to the channel's
list (created empty when absent) and keep only the last 50 when the list
exceeds 50 ([-50:]). -/
def store_update (pings : String → List Entry) (ch : String) (e : Entry) :
    String → List Entry :=
  fun c =>
    if c = ch then
      let l := pings ch ++ [e]
      if 50 < l.length then l.drop (l.length - 50) else l
    else pings c

/-- The ping_tracker on_message listener of afk_scriptV3.py, restricted to
its effect on ping_tracker.json (the AFK auto-reply that follows reads but
never writes the ping store). -/
def ping_tracker (botUserId : Nat) (now : String)
    (pings : String → List Entry) (m : Msg) : String → List Entry :=
  if m.author_id = botUserId || m.author_bot then pings
  else
    let is_dm := m.guild.isNone && m.recipients == 2
    let bot_mentioned := m.mentions.contains botUserId
    if !is_dm && !bot_mentioned then pings
    else store_update pings (toString m.channel_id) (ping_entry now m)

end PingTracker

/-! ## Repository inventory: files and what each registers

Derived from the source tree: the bot.command and bot.listen decorators and
Tab constructions appearing in each file. -/

/-- The 13 source files of the repository.  DmLoggerTop is the top-level
DmLogger.py; dmlogger is nighty-scripts/dmlogger.py. -/
inductive SrcFile where
  | DmLoggerTop
  | help_commands
  | sysinfo
  | ChannelForwarder
  | aes_script
  | afk_script
  | afk_scriptV3
  | block
  | dmlogger
  | paymentsv3
  | speed
  | vc_manager
  | weatherv2
deriving DecidableEq

/-- All files of the repository. -/
def sourceFiles : List SrcFile :=
  [SrcFile.DmLoggerTop, SrcFile.help_commands, SrcFile.sysinfo,
   SrcFile.ChannelForwarder, SrcFile.aes_script, SrcFile.afk_script,
   SrcFile.afk_scriptV3, SrcFile.block, SrcFile.dmlogger,
   SrcFile.paymentsv3, SrcFile.speed, SrcFile.vc_manager,
   SrcFile.weatherv2]

/-- Path of each file inside the repository. -/
def filePath : SrcFile → String
  | SrcFile.DmLoggerTop => "DmLogger.py"
  | SrcFile.help_commands => "help_commands.py"
  | SrcFile.sysinfo => "sysinfo.py"
  | SrcFile.ChannelForwarder => "nighty-scripts/ChannelForwarder.py"
  | SrcFile.aes_script => "nighty-scripts/aes_script.py"
  | SrcFile.afk_script => "nighty-scripts/afk_script.py"
  | SrcFile.afk_scriptV3 => "nighty-scripts/afk_scriptV3.py"
  | SrcFile.block => "nighty-scripts/block.py"
  | SrcFile.dmlogger => "nighty-scripts/dmlogger.py"
  | SrcFile.paymentsv3 => "nighty-scripts/paymentsv3.py"
  | SrcFile.speed => "nighty-scripts/speed.py"
  | SrcFile.vc_manager => "nighty-scripts/vc_manager.py"
  | SrcFile.weatherv2 => "nighty-scripts/weatherv2.py"

/-- How many bot.command decorators, bot.listen decorators and Tab
constructions each file contains. -/
structure RegCounts where
  commands : Nat
  listeners : Nat
  tabs : Nat

/-- Registration counts per file, read off the decorators in the source. -/
def registrations : SrcFile → RegCounts
  | SrcFile.DmLoggerTop => { commands := 4, listeners := 1, tabs := 0 }
  | SrcFile.help_commands => { commands := 7, listeners := 0, tabs := 0 }
  | SrcFile.sysinfo => { commands := 2, listeners := 0, tabs := 0 }
  | SrcFile.ChannelForwarder => { commands := 0, listeners := 0, tabs := 1 }
  | SrcFile.aes_script => { commands := 1, listeners := 0, tabs := 0 }
  | SrcFile.afk_script => { commands := 10, listeners := 2, tabs := 0 }
  | SrcFile.afk_scriptV3 => { commands := 10, listeners := 2, tabs := 0 }
  | SrcFile.block => { commands := 7, listeners := 0, tabs := 0 }
  | SrcFile.dmlogger => { commands := 1, listeners := 3, tabs := 0 }
  | SrcFile.paymentsv3 => { commands := 1, listeners := 0, tabs := 1 }
  | SrcFile.speed => { commands := 1, listeners := 0, tabs := 0 }
  | SrcFile.vc_manager => { commands := 9, listeners := 2, tabs := 1 }
  | SrcFile.weatherv2 => { commands := 1, listeners := 0, tabs := 0 }

/-- Variant family of each file: two files are variants of the same script
when they are versions of the same tool (the AFK script and the DM logger
each ship in two versions; every other script has a single copy). -/
def variantKey : SrcFile → String
  | SrcFile.DmLoggerTop => "dmlogger"
  | SrcFile.dmlogger => "dmlogger"
  | SrcFile.afk_script => "afk_script"
  | SrcFile.afk_scriptV3 => "afk_script"
  | SrcFile.help_commands => "help_commands"
  | SrcFile.sysinfo => "sysinfo"
  | SrcFile.ChannelForwarder => "ChannelForwarder"
  | SrcFile.aes_script => "aes_script"
  | SrcFile.block => "block"
  | SrcFile.paymentsv3 => "paymentsv3"
  | SrcFile.speed => "speed"
  | SrcFile.vc_manager => "vc_manager"
  | SrcFile.weatherv2 => "weatherv2"

/-! ## Concrete fixtures for witnesses -/

/-- Concrete randomness with the nonce lengths pycryptodome produces. -/
def testRand : AES.Rand :=
  { freshKey := [9, 9], freshSalt := [2, 3],
    gcmNonce := List.replicate 16 0,
    cbcIv := List.replicate 16 1,
    ctrNonce := List.replicate 8 2 }

/-- The default aes_config.json contents. -/
def testAesConfig : AES.Config :=
  { default_mode := "GCM", default_keysize := 256,
    pbkdf2_iterations := 100000, rsa_keysize := 2048,
    enable_compression := true, enable_hmac := true }

/-- A DM logger config as the script initializes it. -/
def testDmConfig : DmLogger.Config :=
  { dm_logger_enabled := true,
    dm_webhook_url := "https://discord.com/api/webhooks/1/a",
    embed_color := "5865F2" }

/-- A DM logger config whose embed_color is not valid hexadecimal. -/
def testBadColorConfig : DmLogger.Config :=
  { dm_logger_enabled := true,
    dm_webhook_url := "https://discord.com/api/webhooks/1/a",
    embed_color := "zz" }

/-- An incoming direct message from another human user. -/
def testDmMessage : DmLogger.Message :=
  { guild := none,
    author := { id := 7, bot := false, name := "alice", avatarUrl := none },
    clean_content := "hello",
    jump_url := "https://discord.com/channels/@me/1/2",
    attachments := [] }

/-- A loop environment whose running flag turns false at iteration 2. -/
def testEnv : Nat → Forwarder.IterEnv :=
  fun n => { running := n < 2, fetched := some [{ id := "m1" }] }

/-- A forward-success predicate that always succeeds. -/
def testFwd : Forwarder.Msg → Bool := fun _ => true

/-- A request function that succeeds and leaves the client state alone. -/
def testRequest : String → Forwarder.HttpState Nat →
    Except String Nat × Forwarder.HttpState Nat :=
  fun _ s => (Except.ok 0, s)

/-- An empty ping store. -/
def testPings : String → List PingTracker.Entry := fun _ => []

/-- A DM that mentions nobody (tracked because it is a plain DM). -/
def testPingMsg : PingTracker.Msg :=
  { author_id := 7, author_bot := false, author_str := "alice#0",
    guild := none, channel_id := 5, recipients := 2, mentions := [],
    jump_url := "https://discord.com/channels/@me/5/9" }

/-! ## Helper lemmas -/

theorem hmac_layer_roundtrip (P : Prims) (data key : List Nat) :
    AES.verify_hmac_protection P (AES.add_hmac_protection P data key) key =
      Except.ok data := by
  have hlen : (AES.add_hmac_protection P data key).length - 32 = data.length := by
    simp [AES.add_hmac_protection, P.hmac_length]
  have htake : (AES.add_hmac_protection P data key).take data.length = data := by
    simp [AES.add_hmac_protection]
  have hdrop : (AES.add_hmac_protection P data key).drop data.length =
      P.hmacSha256 key data := by
    simp [AES.add_hmac_protection]
  simp [AES.verify_hmac_protection, hlen, htake, hdrop]

theorem gcm_layer_roundtrip (P : Prims) (nonce pt key : List Nat)
    (h : nonce.length = 16) :
    AES.decrypt_aes_gcm P (AES.encrypt_aes_gcm P nonce pt key) key = some pt := by
  unfold AES.encrypt_aes_gcm AES.decrypt_aes_gcm
  rw [List.append_assoc]
  have htag := P.gcm_tag_length key nonce pt
  have h1 : (nonce ++ ((P.gcmEncrypt key nonce pt).2 ++
      (P.gcmEncrypt key nonce pt).1)).take 16 = nonce := by
    rw [← h]; exact List.take_left nonce _
  have h2 : (nonce ++ ((P.gcmEncrypt key nonce pt).2 ++
      (P.gcmEncrypt key nonce pt).1)).drop 16 =
      (P.gcmEncrypt key nonce pt).2 ++ (P.gcmEncrypt key nonce pt).1 := by
    rw [← h]; exact List.drop_left nonce _
  have h3 : (nonce ++ ((P.gcmEncrypt key nonce pt).2 ++
      (P.gcmEncrypt key nonce pt).1)).drop 32 = (P.gcmEncrypt key nonce pt).1 := by
    have hd : (32 : Nat) = 16 + 16 := rfl
    rw [hd, ← List.drop_drop, h2, ← htag]
    exact List.drop_left _ _
  have h4 : ((nonce ++ ((P.gcmEncrypt key nonce pt).2 ++
      (P.gcmEncrypt key nonce pt).1)).drop 16).take 16 =
      (P.gcmEncrypt key nonce pt).2 := by
    rw [h2, ← htag]
    exact List.take_left _ _
  rw [h1, h3, h4]
  exact P.gcm_decrypt_encrypt key nonce pt

theorem cbc_layer_roundtrip (P : Prims) (iv pt key : List Nat)
    (h : iv.length = 16) :
    AES.decrypt_aes_cbc P (AES.encrypt_aes_cbc P iv pt key) key = some pt := by
  unfold AES.encrypt_aes_cbc AES.decrypt_aes_cbc
  have h1 : (iv ++ P.cbcEncrypt key iv (P.pad pt 16)).take 16 = iv := by
    rw [← h]; exact List.take_left iv _
  have h2 : (iv ++ P.cbcEncrypt key iv (P.pad pt 16)).drop 16 =
      P.cbcEncrypt key iv (P.pad pt 16) := by
    rw [← h]; exact List.drop_left iv _
  rw [h1, h2, P.cbc_decrypt_encrypt, P.unpad_pad]

theorem ctr_layer_roundtrip (P : Prims) (nonce pt key : List Nat)
    (h : nonce.length = 8) :
    AES.decrypt_aes_ctr P (AES.encrypt_aes_ctr P nonce pt key) key = pt := by
  unfold AES.encrypt_aes_ctr AES.decrypt_aes_ctr
  have h1 : (nonce ++ P.ctrEncrypt key nonce pt).take 8 = nonce := by
    rw [← h]; exact List.take_left nonce _
  have h2 : (nonce ++ P.ctrEncrypt key nonce pt).drop 8 =
      P.ctrEncrypt key nonce pt := by
    rw [← h]; exact List.drop_left nonce _
  rw [h1, h2, P.ctr_decrypt_encrypt]

/-! ## Claim theorems -/

/-- C1: multi_layer_decrypt inverts multi_layer_encrypt for every message,
every case-insensitive mode among GCM, CBC and CTR, every setting of the
enable_compression and enable_hmac flags, called with the same password
when one was given and with no extra key otherwise (the package then
embeds its own key); the nonce-length hypotheses are the sizes
pycryptodome generates (16-byte GCM nonce and CBC IV, 8-byte CTR nonce). -/
theorem aes_multi_layer_roundtrip (P : Prims) (r : AES.Rand)
    (cfg : AES.Config) (now : Nat) (message mode : String)
    (password : Option String)
    (hmode : pyUpper mode = "GCM" ∨ pyUpper mode = "CBC" ∨
      pyUpper mode = "CTR")
    (hgcm : r.gcmNonce.length = 16) (hcbc : r.cbcIv.length = 16)
    (hctr : r.ctrNonce.length = 8) :
    ∃ pkg,
      AES.multi_layer_encrypt P r cfg now message mode 256 password =
        Except.ok pkg ∧
      AES.multi_layer_decrypt P pkg password none = Except.ok message := by
  rcases hmode with hm | hm | hm <;>
    by_cases hpw : AES.pyTruthyStr password = true <;>
    by_cases hs : (r.freshSalt != []) = true <;>
    by_cases hh : cfg.enable_hmac = true <;>
    by_cases hc : cfg.enable_compression = true <;>
    simp [AES.multi_layer_encrypt, AES.multi_layer_decrypt,
      AES.multi_layer_decrypt_inner, AES.liftO, AES.derive_key_from_password,
      hm, hpw, hs, hh, hc, P.b64_decode_encode, P.decompress_compress,
      P.utf8_decode_encode, hmac_layer_roundtrip, gcm_layer_roundtrip,
      cbc_layer_roundtrip, ctr_layer_roundtrip, hgcm, hcbc, hctr,
      Bool.and_eq_true]

/-- C1 witness: the round-trip at a concrete message, mode written in
lower case, password given, with the concrete primitive instance. -/
theorem aes_multi_layer_roundtrip_witness :
    ∃ pkg,
      AES.multi_layer_encrypt testPrims testRand testAesConfig 0 "hi" "gcm"
        256 (some "pw") = Except.ok pkg ∧
      AES.multi_layer_decrypt testPrims pkg (some "pw") none =
        Except.ok "hi" :=
  aes_multi_layer_roundtrip testPrims testRand testAesConfig 0 "hi" "gcm"
    (some "pw") (Or.inl (by decide)) (by decide) (by decide) (by decide)

/-- C2: for any byte string of length at least 32, verify_hmac_protection
returns the string with its trailing 32 bytes removed exactly when those
bytes equal the HMAC-SHA256 of the preceding bytes under the key, raising
ValueError otherwise; composed with add_hmac_protection under the same key
it is the identity on the protected data. -/
theorem verify_hmac_protection_spec (P : Prims) (dwh key : List Nat)
    (h : 32 ≤ dwh.length) :
    (AES.verify_hmac_protection P dwh key =
       if dwh.drop (dwh.length - 32) =
           P.hmacSha256 key (dwh.take (dwh.length - 32)) then
         Except.ok (dwh.take (dwh.length - 32))
       else Except.error "HMAC verification failed - data may be tampered") ∧
    (∀ data, AES.verify_hmac_protection P
        (AES.add_hmac_protection P data key) key = Except.ok data) :=
  ⟨rfl, fun data => hmac_layer_roundtrip P data key⟩

/-- C2 witness: the composition identity at a concrete input. -/
theorem verify_hmac_protection_spec_witness :
    AES.verify_hmac_protection testPrims
      (AES.add_hmac_protection testPrims [7, 8] [1]) [1] = Except.ok [7, 8] :=
  (verify_hmac_protection_spec testPrims (List.replicate 32 0) [1] (by decide)).2
    [7, 8]

/-- C5: every source file except ChannelForwarder.py registers at least
one bot command or event listener; ChannelForwarder.py registers neither,
only a UI tab. -/
theorem all_files_register :
    (∀ f ∈ sourceFiles, f ≠ SrcFile.ChannelForwarder →
        1 ≤ (registrations f).commands + (registrations f).listeners) ∧
    (registrations SrcFile.ChannelForwarder).commands = 0 ∧
    (registrations SrcFile.ChannelForwarder).listeners = 0 ∧
    (registrations SrcFile.ChannelForwarder).tabs = 1 := by
  decide

/-- C5 witness: block.py registers at least one command or listener. -/
theorem all_files_register_witness :
    1 ≤ (registrations SrcFile.block).commands +
        (registrations SrcFile.block).listeners :=
  all_files_register.1 SrcFile.block (by decide) (by decide)

/-- C6 counterexample: the repository holds exactly one vc_manager.py, one
block.py, one paymentsv3.py and one speed.py, contradicting the claimed
three and two copies. -/
theorem duplicate_variants_counterexample :
    sourceFiles.countP (fun f => variantKey f == "vc_manager") = 1 ∧
    ¬ sourceFiles.countP (fun f => variantKey f == "vc_manager") = 3 ∧
    sourceFiles.countP (fun f => variantKey f == "block") = 1 ∧
    sourceFiles.countP (fun f => variantKey f == "paymentsv3") = 1 ∧
    sourceFiles.countP (fun f => variantKey f == "speed") = 1 := by
  decide

/-- C6 amended: among the 13 files, only the AFK script (afk_script.py and
afk_scriptV3.py) and the DM logger (DmLogger.py and
nighty-scripts/dmlogger.py) come in two variants; vc_manager.py, block.py,
paymentsv3.py and speed.py each have a single copy. -/
theorem duplicate_variants_amended :
    sourceFiles.length = 13 ∧
    sourceFiles.countP (fun f => variantKey f == "vc_manager") = 1 ∧
    sourceFiles.countP (fun f => variantKey f == "block") = 1 ∧
    sourceFiles.countP (fun f => variantKey f == "paymentsv3") = 1 ∧
    sourceFiles.countP (fun f => variantKey f == "speed") = 1 ∧
    sourceFiles.countP (fun f => variantKey f == "afk_script") = 2 ∧
    sourceFiles.countP (fun f => variantKey f == "dmlogger") = 2 := by
  decide

/-- C3 counterexample: a direct message from another human user, with
dm_logger_enabled true and a non-empty webhook URL, on which log_dm still
sends nothing because int(embed_color, 16) raises first. -/
theorem log_dm_guard_counterexample :
    (testDmMessage.guild = none ∧
     ¬ testDmMessage.author.id = 42 ∧
     testDmMessage.author.bot = false ∧
     testBadColorConfig.dm_logger_enabled = true ∧
     ¬ testBadColorConfig.dm_webhook_url = "") ∧
    DmLogger.attemptsWebhook
      (DmLogger.log_dm testBadColorConfig 42 "t" testDmMessage) = false ∧
    (DmLogger.log_dm testBadColorConfig 42 "t" testDmMessage).raised.isSome =
      true := by
  decide

/-- C3 amended: log_dm attempts the webhook send exactly when the message
is a DM from neither the selfbot user nor a bot, dm_logger_enabled is
true, dm_webhook_url is non-empty, and additionally the configured
embed_color parses as hexadecimal (otherwise the handler raises inside
int() before sending); guild, own and bot messages produce no actions at
all. -/
theorem log_dm_guard_amended (cfg : DmLogger.Config) (botId : Nat)
    (ts : String) (msg : DmLogger.Message) :
    (DmLogger.attemptsWebhook (DmLogger.log_dm cfg botId ts msg) = true ↔
      (msg.guild = none ∧ ¬ msg.author.id = botId ∧ msg.author.bot = false ∧
       cfg.dm_logger_enabled = true ∧ ¬ cfg.dm_webhook_url = "" ∧
       (DmLogger.pyIntHex cfg.embed_color).isSome = true)) ∧
    (msg.guild.isSome = true ∨ msg.author.id = botId ∨ msg.author.bot = true →
      DmLogger.log_dm cfg botId ts msg = { actions := [], raised := none }) := by
  cases hmg : msg.guild with
  | some g =>
    constructor
    · simp [DmLogger.log_dm, hmg, DmLogger.attemptsWebhook]
    · intro _
      simp [DmLogger.log_dm, hmg]
  | none =>
    by_cases hid : msg.author.id = botId
    · constructor
      · simp [DmLogger.log_dm, hmg, hid, DmLogger.attemptsWebhook]
      · intro _
        simp [DmLogger.log_dm, hmg, hid]
    · by_cases hbot : msg.author.bot = true
      · constructor
        · simp [DmLogger.log_dm, hmg, hid, hbot, DmLogger.attemptsWebhook]
        · intro _
          simp [DmLogger.log_dm, hmg, hid, hbot]
      · have hbot2 : msg.author.bot = false := by
          rcases Bool.eq_false_or_eq_true msg.author.bot with h | h
          · exact absurd h hbot
          · exact h
        constructor
        · by_cases hen : cfg.dm_logger_enabled = true
          · by_cases hurl : cfg.dm_webhook_url = ""
            · simp [DmLogger.log_dm, hmg, hid, hbot2, hen, hurl,
                DmLogger.attemptsWebhook, DmLogger.isWebhookSend]
            · cases hhex : DmLogger.pyIntHex cfg.embed_color with
              | none =>
                simp [DmLogger.log_dm, hmg, hid, hbot2, hen, hurl, hhex,
                  DmLogger.attemptsWebhook, DmLogger.isWebhookSend]
              | some col =>
                simp [DmLogger.log_dm, hmg, hid, hbot2, hen, hurl, hhex,
                  DmLogger.attemptsWebhook, DmLogger.isWebhookSend]
          · have hen2 : cfg.dm_logger_enabled = false := by
              rcases Bool.eq_false_or_eq_true cfg.dm_logger_enabled with h | h
              · exact absurd h hen
              · exact h
            simp [DmLogger.log_dm, hmg, hid, hbot2, hen2,
              DmLogger.attemptsWebhook]
        · rintro (h | h | h)
          · exact absurd h (by simp)
          · exact absurd h hid
          · exact absurd h hbot

/-- C3 witness for the amended guard: the send is attempted on a concrete
human DM with the script-initialized config. -/
theorem log_dm_guard_amended_witness :
    DmLogger.attemptsWebhook
      (DmLogger.log_dm testDmConfig 42 "t" testDmMessage) = true :=
  (log_dm_guard_amended testDmConfig 42 "t" testDmMessage).1.mpr (by decide)

theorem forward_fold_spec (f : Forwarder.Msg → Bool)
    (l : List Forwarder.Msg) :
    ∀ (d0 : List Forwarder.Msg) (t0 : String),
      ∃ e, l.foldl (Forwarder.forward_step f) (d0, t0) =
          (d0 ++ e, (e.map Forwarder.Msg.id).getLastD t0) ∧
        e.Sublist l ∧ ∀ m ∈ e, f m = true := by
  induction l with
  | nil =>
    intro d0 t0
    exact ⟨[], by simp, List.nil_sublist _, by simp⟩
  | cons m tl ih =>
    intro d0 t0
    by_cases hskip : m.id ≠ t0
    · by_cases hf : f m = true
      · obtain ⟨e, he, hsub, hall⟩ := ih (d0 ++ [m]) m.id
        refine ⟨m :: e, ?_, List.cons_sublist_cons.mpr hsub, ?_⟩
        · have hstep : Forwarder.forward_step f (d0, t0) m = (d0 ++ [m], m.id) := by
            simp [Forwarder.forward_step, hskip, hf]
          rw [List.foldl_cons, hstep, he, List.map_cons, List.getLastD_cons]
          simp
        · intro x hx
          rcases List.mem_cons.mp hx with hx | hx
          · rw [hx]; exact hf
          · exact hall x hx
      · obtain ⟨e, he, hsub, hall⟩ := ih d0 t0
        refine ⟨e, ?_, hsub.cons m, hall⟩
        have hstep : Forwarder.forward_step f (d0, t0) m = (d0, t0) := by
          simp [Forwarder.forward_step, hskip, hf]
        rw [List.foldl_cons, hstep, he]
    · obtain ⟨e, he, hsub, hall⟩ := ih d0 t0
      refine ⟨e, ?_, hsub.cons m, hall⟩
      have hstep : Forwarder.forward_step f (d0, t0) m = (d0, t0) := by
        simp [Forwarder.forward_step, hskip]
      rw [List.foldl_cons, hstep, he]

/-- C4: the forwarder polls over HTTP with limit=50 and the stored cursor
as the after parameter, sleeps 2 seconds per iteration, registers no
gateway listener, and within one iteration forwards a subsequence of the
fetched messages in reversed (oldest-first) order, with the cursor ending
at the id of the last successfully forwarded message (unchanged when none
succeeded). -/
theorem forwarder_polling_spec (f : Forwarder.Msg → Bool)
    (messages : List Forwarder.Msg) (last a channel_id : String) :
    Forwarder.fetch_params (some a) = [("limit", "50"), ("after", a)] ∧
    Forwarder.fetch_params none = [("limit", "50")] ∧
    Forwarder.fetch_url channel_id (some a) =
      "/channels/" ++ channel_id ++ "/messages?" ++ ("limit=50&after=" ++ a) ∧
    (Forwarder.monitor_iteration f (some messages) last).sleep = 2 ∧
    (Forwarder.monitor_iteration f none last).forwarded = [] ∧
    (registrations SrcFile.ChannelForwarder).listeners = 0 ∧
    (Forwarder.process_messages f messages last).1.Sublist messages.reverse ∧
    (∀ m ∈ (Forwarder.process_messages f messages last).1, f m = true) ∧
    (Forwarder.process_messages f messages last).2 =
      ((Forwarder.process_messages f messages last).1.map
        Forwarder.Msg.id).getLastD last := by
  obtain ⟨e, he, hsub, hall⟩ := forward_fold_spec f messages.reverse [] last
  have hp : Forwarder.process_messages f messages last =
      (e, (e.map Forwarder.Msg.id).getLastD last) := by
    unfold Forwarder.process_messages
    rw [he]
    simp
  refine ⟨rfl, rfl, rfl, rfl, rfl, rfl, ?_, ?_, ?_⟩
  · rw [hp]; exact hsub
  · rw [hp]; exact hall
  · rw [hp]

/-- C4 witness: the iteration facts at a concrete fetched batch. -/
theorem forwarder_polling_spec_witness :
    ((Forwarder.process_messages testFwd
        [{ id := "2" }, { id := "1" }] "0").1).Sublist
      ([{ id := "2" }, { id := "1" }] : List Forwarder.Msg).reverse :=
  (forwarder_polling_spec testFwd [{ id := "2" }, { id := "1" }] "0" "7"
      "123").2.2.2.2.2.2.1

/-- C9: once the forwarder_is_running flag reads false at the start of a
loop iteration, the loop exits before fetching or forwarding, so after
stop_monitoring clears the flag no message is forwarded at any iteration
at or past the one that observes it. -/
theorem forwarder_stop_honored (c : Forwarder.FwdConfig)
    (env : Nat → Forwarder.IterEnv) (f : Forwarder.Msg → Bool) (k : Nat)
    (hk : (env k).running = false) :
    (Forwarder.stop_monitoring c).forwarder_is_running = false ∧
    ∀ fuel i last j m, i ≤ k →
      (j, m) ∈ Forwarder.run_loop env f fuel i last → j < k := by
  refine ⟨rfl, ?_⟩
  intro fuel
  induction fuel with
  | zero =>
    intro i last j m _ hmem
    simp [Forwarder.run_loop] at hmem
  | succ n ih =>
    intro i last j m hik hmem
    by_cases hrun : (env i).running = true
    · rw [Forwarder.run_loop, if_pos hrun] at hmem
      have hne : ¬ i = k := by
        intro hik2
        rw [hik2, hk] at hrun
        exact Bool.false_ne_true hrun
      rcases List.mem_append.mp hmem with hml | hmr
      · obtain ⟨m2, _, heq⟩ := List.mem_map.mp hml
        have hji : i = j := congrArg Prod.fst heq
        omega
      · exact ih (i + 1) _ j m (by omega) hmr
    · rw [Forwarder.run_loop, if_neg hrun] at hmem
      simp at hmem

/-- C9 witness: with the flag false from iteration 2 on, no message is
forwarded at iteration 3. -/
theorem forwarder_stop_honored_witness :
    (Forwarder.stop_monitoring
        { forwarder_is_running := true,
          forwarder_last_message_id := "5" }).forwarder_is_running = false ∧
    ((3, { id := "m" }) ∈ Forwarder.run_loop testEnv testFwd 9 0 "x" →
      False) := by
  have h := forwarder_stop_honored
    { forwarder_is_running := true, forwarder_last_message_id := "5" }
    testEnv testFwd 2 (by decide)
  exact ⟨h.1, fun hm =>
    absurd (h.2 9 0 "x" 3 { id := "m" } (by decide) hm) (by decide)⟩

/-- C8: fetch_messages restores bot.http.token in its finally block and
modifies no other bot.http field, whether the request succeeds or raises
(the hypothesis states that the host request call leaves the other client
fields alone; the claim concerns the fields the script touches). -/
theorem fetch_messages_token_restore {α E R : Type}
    (request : String → Forwarder.HttpState α →
      Except E R × Forwarder.HttpState α)
    (hframe : ∀ u s, (request u s).2.rest = s.rest)
    (token channel_id : String) (after : Option String)
    (s : Forwarder.HttpState α) :
    (Forwarder.fetch_messages_state request token channel_id after s).2 = s := by
  obtain ⟨tok, rst⟩ := s
  unfold Forwarder.fetch_messages_state
  cases hout : (request (Forwarder.fetch_url channel_id after)
      { token := token, rest := rst }).1 <;>
    simp [hout, hframe]

/-- C7: set_dm_webhook stores the stripped URL exactly when the given URL
starts with one of the two accepted Discord webhook prefixes; every other
input is rejected with an error reply and no config update. -/
theorem set_dm_webhook_spec (url : String) :
    if DmLogger.pyStartsWith url "https://discord.com/api/webhooks/" = true ∨
        DmLogger.pyStartsWith url "https://discordapp.com/api/webhooks/" = true
    then
      DmLogger.set_dm_webhook url =
        DmLogger.SetWebhookResult.updated (DmLogger.pyStrip url)
    else
      (DmLogger.set_dm_webhook url =
         DmLogger.SetWebhookResult.rejected "Please provide a webhook URL." ∨
       DmLogger.set_dm_webhook url =
         DmLogger.SetWebhookResult.rejected
           "Invalid webhook URL format. Please provide a valid Discord webhook URL.") := by
  by_cases hcond :
      DmLogger.pyStartsWith url "https://discord.com/api/webhooks/" = true ∨
      DmLogger.pyStartsWith url "https://discordapp.com/api/webhooks/" = true
  · rw [if_pos hcond]
    have hne : ¬ url = "" := by
      rintro rfl
      rcases hcond with hc | hc <;> revert hc <;> decide
    rcases hcond with hc | hc <;> simp [DmLogger.set_dm_webhook, hne, hc]
  · rw [if_neg hcond]
    have hc1 : DmLogger.pyStartsWith url "https://discord.com/api/webhooks/" =
        false := by
      rcases Bool.eq_false_or_eq_true
          (DmLogger.pyStartsWith url "https://discord.com/api/webhooks/") with
        h | h
      · exact absurd (Or.inl h) hcond
      · exact h
    have hc2 : DmLogger.pyStartsWith url "https://discordapp.com/api/webhooks/" =
        false := by
      rcases Bool.eq_false_or_eq_true
          (DmLogger.pyStartsWith url "https://discordapp.com/api/webhooks/") with
        h | h
      · exact absurd (Or.inr h) hcond
      · exact h
    by_cases hurl : url = ""
    · left; simp [DmLogger.set_dm_webhook, hurl]
    · right; simp [DmLogger.set_dm_webhook, hurl, hc1, hc2]

/-- C10: after any run of the ping_tracker listener, every channel list in
the ping store still has at most 50 entries, and a channel list that was
rewritten is a suffix of the old list with the new entry appended (only
the most recent entries are kept). -/
theorem ping_store_bound (botId : Nat) (now : String)
    (pings : String → List PingTracker.Entry) (m : PingTracker.Msg)
    (hbound : ∀ c, (pings c).length ≤ 50) :
    (∀ c, (PingTracker.ping_tracker botId now pings m c).length ≤ 50) ∧
    (∀ c, PingTracker.ping_tracker botId now pings m c = pings c ∨
        List.IsSuffix (PingTracker.ping_tracker botId now pings m c)
          (pings c ++ [PingTracker.ping_entry now m])) := by
  have hupd : ∀ ch e c,
      PingTracker.store_update pings ch e c = pings c ∨
      (List.IsSuffix (PingTracker.store_update pings ch e c)
          (pings c ++ [e]) ∧
        (PingTracker.store_update pings ch e c).length ≤ 50) := by
    intro ch e c
    unfold PingTracker.store_update
    by_cases hc : c = ch
    · subst hc
      right
      by_cases hlen : 50 < (pings c ++ [e]).length
      · rw [if_pos rfl, if_pos hlen]
        constructor
        · exact List.drop_suffix _ _
        · rw [List.length_drop]
          omega
      · rw [if_pos rfl, if_neg hlen]
        exact ⟨List.suffix_refl _, by omega⟩
    · left
      rw [if_neg hc]
  have hcases : ∀ c,
      PingTracker.ping_tracker botId now pings m c = pings c ∨
      PingTracker.ping_tracker botId now pings m c =
        PingTracker.store_update pings (toString m.channel_id)
          (PingTracker.ping_entry now m) c := by
    intro c
    unfold PingTracker.ping_tracker
    by_cases h1 : (decide (m.author_id = botId) || m.author_bot) = true
    · rw [if_pos h1]; exact Or.inl rfl
    · rw [if_neg h1]
      by_cases h2 : (!(m.guild.isNone && m.recipients == 2) &&
          !m.mentions.contains botId) = true
      · rw [if_pos h2]; exact Or.inl rfl
      · rw [if_neg h2]; exact Or.inr rfl
  constructor
  · intro c
    rcases hcases c with h | h
    · rw [h]; exact hbound c
    · rw [h]
      rcases hupd (toString m.channel_id) (PingTracker.ping_entry now m) c with
        h2 | h2
      · rw [h2]; exact hbound c
      · exact h2.2
  · intro c
    rcases hcases c with h | h
    · exact Or.inl h
    · rw [h]
      rcases hupd (toString m.channel_id) (PingTracker.ping_entry now m) c with
        h2 | h2
      · exact Or.inl h2
      · exact Or.inr h2.1

/-- C10 witness: the bound holds after tracking a concrete DM on an empty
store. -/
theorem ping_store_bound_witness :
    (PingTracker.ping_tracker 1 "t" testPings testPingMsg "5").length ≤ 50 :=
  (ping_store_bound 1 "t" testPings testPingMsg (fun _ => Nat.zero_le 50)).1 "5"

/-- C8 witness: the state is restored at a concrete request and state. -/
theorem fetch_messages_token_restore_witness :
    (Forwarder.fetch_messages_state testRequest "temp" "123" (some "9")
        { token := "orig", rest := 7 }).2 = { token := "orig", rest := 7 } :=
  fetch_messages_token_restore testRequest (fun _ _ => rfl) "temp" "123"
    (some "9") { token := "orig", rest := 7 }

end NightyScripts
